import Mathlib

/-!
# Verification of the Auto-GPT SystemInformation plugin

Shallow embedding of `src/system_information_plugin/__init__.py`.

The plugin queries the host OS through `platform` / `distro` library calls.
We model the outcome of those calls as an environment record `Env`: each
field holds the value the corresponding library call would return on this
host, wrapped in `Except PyExc` because a call may itself raise.  The
plugin's methods become pure functions of that environment; a Python method
that can raise returns `Except PyExc α`.

Python-semantics notes reflected in the model:
* `platform.architecture()` returns a pair `(bits, linkage)`; the code reads
  index 0, which always exists, so the pair is modelled as `String × String`.
* `platform.win32_ver()` returns a tuple of strings, modelled as
  `List String`; tuple indexing `t[i]` raises `IndexError` when `i` is out of
  range (`tupleGet`).  Real CPython always returns a 4-tuple
  `(release, version, csd, ptype)`.
* `platform.mac_ver()` returns `(release, versioninfo, machine)` where
  `versioninfo` is itself a triple; the code reads indices 0 and 2, modelled
  by the `MacVer` structure's `release` and `machine` fields.
* reading a local variable that was never assigned raises
  `UnboundLocalError` (`PyExc.unboundLocal`).
* `if x:` on an `Optional[str]` is true iff `x` is neither `None` nor `""`
  (`truthy`); on a `str` it is true iff the string is non-empty
  (`str_truthy`).
-/

namespace SystemInfoPlugin

/-- Python exceptions that matter for this module: tuple `IndexError`,
`UnboundLocalError` (reading a never-assigned local at `return os_info`),
and any other exception an underlying OS-query call might raise. -/
inductive PyExc where
  | indexError
  | unboundLocal
  | other (msg : String)
deriving DecidableEq

/-- The result of `platform.mac_ver()`: `(release, versioninfo, machine)`.
The code uses `mac_ver[0]` (`release`) and `mac_ver[2]` (`machine`). -/
structure MacVer where
  release : String
  versioninfo : String × String × String
  machine : String
deriving DecidableEq

/-- One host environment: the value each OS-query library call returns on
this host (or the exception it raises).  `get_system_info` reads the world
only through these calls, so it is a pure function of `Env`. -/
structure Env where
  /-- `platform.system()` -/
  system : Except PyExc String
  /-- `platform.architecture()`, a `(bits, linkage)` pair -/
  architecture : Except PyExc (String × String)
  /-- `distro.name()` -/
  distro_name : Except PyExc String
  /-- `distro.version()` -/
  distro_version : Except PyExc String
  /-- `distro.id()` -/
  distro_id : Except PyExc String
  /-- `platform.win32_ver()`, a tuple of strings -/
  win32_ver : Except PyExc (List String)
  /-- `platform.mac_ver()` -/
  mac_ver : Except PyExc MacVer

/-- Python tuple indexing `t[i]` on a tuple of strings: the element, or
`IndexError` when `i` is out of range. -/
def tupleGet (t : List String) (i : Nat) : Except PyExc String :=
  match t[i]? with
  | some x => .ok x
  | none => .error .indexError

/-- Python truthiness of a `str`: non-empty. -/
def str_truthy (s : String) : Bool :=
  !(s == "")

/-- Python truthiness of an `Optional[str]`: not `None` and non-empty. -/
def truthy : Option String → Bool
  | none => false
  | some s => str_truthy s

/-- `SystemInformationPlugin.get_system_info`, lines 203-246 of
`__init__.py`, translated statement by statement.  Each OS-query call is a
read of the corresponding `Env` field; a failing read propagates (Python
has no `try` here).  The final `return os_info` raises `UnboundLocalError`
when no branch assigned `os_info`. -/
def get_system_info (env : Env) : Except PyExc String :=
  -- arch = platform.architecture()[0]
  match env.architecture with
  | .error e => .error e
  | .ok archPair =>
    let arch := archPair.1
    -- platform.system() (the same value is returned by all three calls)
    match env.system with
    | .error e => .error e
    | .ok sys =>
      -- if platform.system() == "Linux": distro_info = f"{name} {version} ({id})"
      let distroStep : Except PyExc (Option String) :=
        if sys == "Linux" then
          match env.distro_name with
          | .error e => .error e
          | .ok distro_name =>
            match env.distro_version with
            | .error e => .error e
            | .ok distro_version =>
              match env.distro_id with
              | .error e => .error e
              | .ok distro_id =>
                .ok (some (distro_name ++ " " ++ distro_version ++ " (" ++ distro_id ++ ")"))
        else .ok none
      match distroStep with
      | .error e => .error e
      | .ok distro_info =>
        -- if platform.system() == "Windows":
        --   win_ver = platform.win32_ver()
        --   win_version = f"{win_ver[0]} {win_ver[1]} {win_ver[4]}"
        let winStep : Except PyExc (Option String) :=
          if sys == "Windows" then
            match env.win32_ver with
            | .error e => .error e
            | .ok win_ver =>
              match tupleGet win_ver 0 with
              | .error e => .error e
              | .ok w0 =>
                match tupleGet win_ver 1 with
                | .error e => .error e
                | .ok w1 =>
                  match tupleGet win_ver 4 with
                  | .error e => .error e
                  | .ok w4 => .ok (some (w0 ++ " " ++ w1 ++ " " ++ w4))
          else .ok none
        match winStep with
        | .error e => .error e
        | .ok win_version =>
          -- if platform.system() == "Darwin":
          --   mac_ver = platform.mac_ver()
          --   mac_version = f"{mac_ver[0]} {mac_ver[2]}"
          let macStep : Except PyExc (Option String) :=
            if sys == "Darwin" then
              match env.mac_ver with
              | .error e => .error e
              | .ok m => .ok (some (m.release ++ " " ++ m.machine))
            else .ok none
          match macStep with
          | .error e => .error e
          | .ok mac_version =>
            -- os_info is unassigned until one of the three guards fires
            let os_info : Option String := none
            -- if distro_info: os_info = f"Linux {arch} {distro_info}"
            let os_info := if truthy distro_info then
                some ("Linux " ++ arch ++ " " ++ distro_info.getD "")
              else os_info
            -- if win_version: os_info = f"Windows {win_version}"
            let os_info := if truthy win_version then
                some ("Windows " ++ win_version.getD "")
              else os_info
            -- if mac_version: os_info = f"macOS {mac_version}"
            let os_info := if truthy mac_version then
                some ("macOS " ++ mac_version.getD "")
              else os_info
            -- return os_info (NameError/UnboundLocalError when unassigned)
            match os_info with
            | some s => .ok s
            | none => .error .unboundLocal

/-- The `Message` TypedDict of the plugin module. -/
structure Message where
  role : String
  content : String
deriving DecidableEq

/-- The host framework's prompt object, as far as this plugin touches it:
`add_resource` appends to a list of resources.  `ρ` stands for whatever
other state the host's object carries; the plugin never reads or writes
it, and keeping it in the model lets the frame theorems say so. -/
structure PromptGenerator (ρ : Type) where
  resources : List String
  rest : ρ
deriving DecidableEq

/-- `prompt.add_resource(r)`: appends one resource. -/
def PromptGenerator.add_resource {ρ : Type} (p : PromptGenerator ρ) (r : String) :
    PromptGenerator ρ :=
  { p with resources := p.resources ++ [r] }

/-- The plugin object's state: the three fields `__init__` sets.  No other
method of the class ever assigns to `self`, which the embedding makes
explicit by threading this state through every method. -/
structure SystemInformationPlugin where
  name : String
  version : String
  description : String
deriving DecidableEq

/-- `SystemInformationPlugin.__init__`: the freshly constructed plugin. -/
def SystemInformationPlugin.init : SystemInformationPlugin :=
  { name := "Auto-GPT-Plugin-SystemInfo"
    version := "0.1.0"
    description := "This is system info plugin for Auto-GPT." }

/-- `SystemInformationPlugin.post_prompt`, lines 31-38: call
`get_system_info` (whose exception, if any, propagates), and when the
result is truthy append one resource to the prompt; return the same
prompt. -/
def post_prompt {ρ : Type} (self : SystemInformationPlugin) (env : Env)
    (prompt : PromptGenerator ρ) :
    Except PyExc (SystemInformationPlugin × PromptGenerator ρ) :=
  match get_system_info env with
  | .error e => .error e
  | .ok os_info =>
    let prompt := if str_truthy os_info then
        prompt.add_resource ("Shell commands executed on " ++ os_info)
      else prompt
    .ok (self, prompt)

/-- `can_handle_post_prompt`: returns `True`. -/
def can_handle_post_prompt (self : SystemInformationPlugin) :
    SystemInformationPlugin × Bool :=
  (self, true)

/-- `can_handle_on_response`: returns `False`. -/
def can_handle_on_response (self : SystemInformationPlugin) :
    SystemInformationPlugin × Bool :=
  (self, false)

/-- `on_response(response, *args, **kwargs)`: `pass`, so it returns `None`
and leaves the plugin state alone. -/
def on_response (self : SystemInformationPlugin) (response : String) :
    SystemInformationPlugin × Option String :=
  (self, none)

/-- `can_handle_on_planning`: returns `False`. -/
def can_handle_on_planning (self : SystemInformationPlugin) :
    SystemInformationPlugin × Bool :=
  (self, false)

/-- `on_planning(prompt, messages)`: `pass`.  The mutable arguments
(prompt object, message list) are threaded through to state that the stub
does not touch them. -/
def on_planning {ρ : Type} (self : SystemInformationPlugin)
    (prompt : PromptGenerator ρ) (messages : List Message) :
    SystemInformationPlugin × PromptGenerator ρ × List Message × Option String :=
  (self, prompt, messages, none)

/-- `can_handle_post_planning`: returns `False`. -/
def can_handle_post_planning (self : SystemInformationPlugin) :
    SystemInformationPlugin × Bool :=
  (self, false)

/-- `post_planning(response)`: `pass`. -/
def post_planning (self : SystemInformationPlugin) (response : String) :
    SystemInformationPlugin × Option String :=
  (self, none)

/-- `can_handle_pre_instruction`: returns `False`. -/
def can_handle_pre_instruction (self : SystemInformationPlugin) :
    SystemInformationPlugin × Bool :=
  (self, false)

/-- `pre_instruction(messages)`: `pass`. -/
def pre_instruction (self : SystemInformationPlugin) (messages : List Message) :
    SystemInformationPlugin × List Message × Option (List Message) :=
  (self, messages, none)

/-- `can_handle_on_instruction`: returns `False`. -/
def can_handle_on_instruction (self : SystemInformationPlugin) :
    SystemInformationPlugin × Bool :=
  (self, false)

/-- `on_instruction(messages)`: `pass`. -/
def on_instruction (self : SystemInformationPlugin) (messages : List Message) :
    SystemInformationPlugin × List Message × Option String :=
  (self, messages, none)

/-- `can_handle_post_instruction`: returns `False`. -/
def can_handle_post_instruction (self : SystemInformationPlugin) :
    SystemInformationPlugin × Bool :=
  (self, false)

/-- `post_instruction(response)`: `pass`. -/
def post_instruction (self : SystemInformationPlugin) (response : String) :
    SystemInformationPlugin × Option String :=
  (self, none)

/-- `can_handle_pre_command`: returns `False`. -/
def can_handle_pre_command (self : SystemInformationPlugin) :
    SystemInformationPlugin × Bool :=
  (self, false)

/-- `pre_command(command_name, arguments)`: `pass`.  `δ` stands for the
`Dict[str, Any]` of arguments, threaded through untouched. -/
def pre_command {δ : Type} (self : SystemInformationPlugin)
    (command_name : String) (arguments : δ) :
    SystemInformationPlugin × δ × Option (String × δ) :=
  (self, arguments, none)

/-- `can_handle_post_command`: returns `False`. -/
def can_handle_post_command (self : SystemInformationPlugin) :
    SystemInformationPlugin × Bool :=
  (self, false)

/-- `post_command(command_name, response)`: `pass`. -/
def post_command (self : SystemInformationPlugin) (command_name : String)
    (response : String) :
    SystemInformationPlugin × Option String :=
  (self, none)

/-- `can_handle_chat_completion(messages, model, temperature, max_tokens)`:
returns `False`.  `δ` stands for the `Dict[Any, Any]` of messages and `τ`
for the float temperature; neither is inspected. -/
def can_handle_chat_completion {δ τ : Type} (self : SystemInformationPlugin)
    (messages : δ) (model : String) (temperature : τ) (max_tokens : Int) :
    SystemInformationPlugin × δ × Bool :=
  (self, messages, false)

/-- `handle_chat_completion(messages, model, temperature, max_tokens)`:
`pass`. -/
def handle_chat_completion {τ : Type} (self : SystemInformationPlugin)
    (messages : List Message) (model : String) (temperature : τ)
    (max_tokens : Int) :
    SystemInformationPlugin × List Message × Option String :=
  (self, messages, none)

/-- `sub` occurs contiguously inside `s` (Python's `sub in s`). -/
def strContains (s sub : String) : Prop :=
  ∃ pre suf : List Char, s.data = pre ++ (sub.data ++ suf)

lemma strContains_intro (s sub : String) (pre suf : List Char)
    (h : s.data = pre ++ (sub.data ++ suf)) : strContains s sub :=
  ⟨pre, suf, h⟩

lemma truthy_none : truthy none = false := rfl

lemma str_truthy_of_pos (s : String) (h : 0 < s.length) : str_truthy s = true := by
  have hne : s ≠ "" := by
    intro e
    rw [e] at h
    simp at h
  simp [str_truthy, hne]

/-- The Linux helper string `f"{name} {version} ({id})"` is non-empty (it
always holds the spaces and parentheses), whatever the queried fields hold. -/
lemma truthy_distro_helper (n v i : String) :
    truthy (some (n ++ " " ++ v ++ " (" ++ i ++ ")")) = true := by
  show str_truthy _ = true
  apply str_truthy_of_pos
  have h1 : (" " : String).length = 1 := rfl
  have h2 : (" (" : String).length = 2 := rfl
  have h3 : (")" : String).length = 1 := rfl
  simp [String.length_append, h1, h2, h3]

/-- The Windows helper string `f"{w0} {w1} {w4}"` is non-empty. -/
lemma truthy_win_helper (a b c : String) :
    truthy (some (a ++ " " ++ b ++ " " ++ c)) = true := by
  show str_truthy _ = true
  apply str_truthy_of_pos
  have h1 : (" " : String).length = 1 := rfl
  simp [String.length_append, h1]

/-- The macOS helper string `f"{release} {machine}"` is non-empty. -/
lemma truthy_mac_helper (a b : String) :
    truthy (some (a ++ " " ++ b)) = true := by
  show str_truthy _ = true
  apply str_truthy_of_pos
  have h1 : (" " : String).length = 1 := rfl
  simp [String.length_append, h1]

/-- Evaluation of `get_system_info` on a Linux host whose queries all
succeed: the Linux branch assembles the one returned string. -/
lemma get_system_info_linux (env : Env) (a : String × String) (n v i : String)
    (harch : env.architecture = .ok a) (hsys : env.system = .ok "Linux")
    (hn : env.distro_name = .ok n) (hv : env.distro_version = .ok v)
    (hi : env.distro_id = .ok i) :
    get_system_info env =
      .ok ("Linux " ++ a.1 ++ " " ++ (n ++ " " ++ v ++ " (" ++ i ++ ")")) := by
  simp [get_system_info, harch, hsys, hn, hv, hi, truthy_distro_helper, truthy_none]

/-- Evaluation of `get_system_info` on a macOS host whose queries all
succeed: the Darwin branch assembles the one returned string. -/
lemma get_system_info_darwin (env : Env) (a : String × String) (m : MacVer)
    (harch : env.architecture = .ok a) (hsys : env.system = .ok "Darwin")
    (hm : env.mac_ver = .ok m) :
    get_system_info env = .ok ("macOS " ++ (m.release ++ " " ++ m.machine)) := by
  simp [get_system_info, harch, hsys, hm, truthy_mac_helper, truthy_none]

/-- Evaluation of `get_system_info` on a Windows host whose queries all
succeed and whose `platform.win32_ver()` tuple has the four fields CPython
gives it: the `win_ver[4]` access raises `IndexError`. -/
lemma get_system_info_windows_4tuple (env : Env) (a : String × String)
    (t : List String)
    (harch : env.architecture = .ok a) (hsys : env.system = .ok "Windows")
    (ht : env.win32_ver = .ok t) (hlen : t.length = 4) :
    get_system_info env = .error .indexError := by
  rcases t with _ | ⟨x0, t⟩
  · simp at hlen
  rcases t with _ | ⟨x1, t⟩
  · simp at hlen
  rcases t with _ | ⟨x2, t⟩
  · simp at hlen
  rcases t with _ | ⟨x3, t⟩
  · simp at hlen
  rcases t with _ | ⟨x4, t⟩
  · simp [get_system_info, harch, hsys, ht, tupleGet]
  · simp at hlen

/-- Evaluation of `get_system_info` on a host whose OS family is none of
the three recognized ones: no branch assigns `os_info`, so the final
`return os_info` raises `UnboundLocalError`. -/
lemma get_system_info_unrecognized (env : Env) (a : String × String) (s : String)
    (harch : env.architecture = .ok a) (hsys : env.system = .ok s)
    (hL : s ≠ "Linux") (hW : s ≠ "Windows") (hD : s ≠ "Darwin") :
    get_system_info env = .error .unboundLocal := by
  have bL : (s == "Linux") = false := beq_eq_false_iff_ne.mpr hL
  have bW : (s == "Windows") = false := beq_eq_false_iff_ne.mpr hW
  have bD : (s == "Darwin") = false := beq_eq_false_iff_ne.mpr hD
  simp [get_system_info, harch, hsys, bL, bW, bD, truthy]

lemma strContains_refl (s : String) : strContains s s :=
  ⟨[], [], by simp⟩

lemma strContains_append_left (s t sub : String) (h : strContains s sub) :
    strContains (s ++ t) sub := by
  obtain ⟨p, q, hd⟩ := h
  exact ⟨p, q ++ t.data, by simp [String.data_append, hd]⟩

lemma strContains_append_right (s t sub : String) (h : strContains t sub) :
    strContains (s ++ t) sub := by
  obtain ⟨p, q, hd⟩ := h
  exact ⟨s.data ++ p, q, by simp [String.data_append, hd]⟩

/-- Evaluation of `get_system_info` on a Windows host whose queries all
succeed: whatever the `win32_ver` tuple holds, the `return os_info` line
never sees an unassigned `os_info`.  Either a tuple access raises
`IndexError` first, or (tuple of five or more fields) the Windows helper
string is non-empty, so the Windows guard assigns `os_info`. -/
lemma get_system_info_windows_not_unbound (env : Env) (a : String × String)
    (t : List String)
    (harch : env.architecture = .ok a) (hsys : env.system = .ok "Windows")
    (ht : env.win32_ver = .ok t) :
    get_system_info env ≠ .error .unboundLocal := by
  rcases h0 : t[0]? with _ | w0
  · simp [get_system_info, harch, hsys, ht, tupleGet, h0]
  rcases h1 : t[1]? with _ | w1
  · simp [get_system_info, harch, hsys, ht, tupleGet, h0, h1]
  rcases h4 : t[4]? with _ | w4
  · simp [get_system_info, harch, hsys, ht, tupleGet, h0, h1, h4]
  · simp [get_system_info, harch, hsys, ht, tupleGet, h0, h1, h4,
      truthy_win_helper, truthy_none]

/-- A simulated x86-64 Ubuntu host.  The `win32_ver` and `mac_ver` values
are what CPython returns for those calls on a non-Windows, non-mac host. -/
def linuxEnv : Env :=
  { system := .ok "Linux", architecture := .ok ("64bit", "ELF"),
    distro_name := .ok "Ubuntu", distro_version := .ok "22.04",
    distro_id := .ok "ubuntu",
    win32_ver := .ok ["", "", "", ""], mac_ver := .ok ⟨"", ("", "", ""), ""⟩ }

/-- A simulated Linux host on which every distribution field comes back as
the empty string. -/
def linuxEmptyEnv : Env :=
  { system := .ok "Linux", architecture := .ok ("64bit", "ELF"),
    distro_name := .ok "", distro_version := .ok "", distro_id := .ok "",
    win32_ver := .ok ["", "", "", ""], mac_ver := .ok ⟨"", ("", "", ""), ""⟩ }

/-- A simulated Apple-silicon macOS host.  `distro.*` returns empty strings
there; `win32_ver` is the empty 4-tuple. -/
def darwinEnv : Env :=
  { system := .ok "Darwin", architecture := .ok ("64bit", ""),
    distro_name := .ok "", distro_version := .ok "", distro_id := .ok "",
    win32_ver := .ok ["", "", "", ""],
    mac_ver := .ok ⟨"14.2", ("", "", ""), "arm64"⟩ }

/-- A simulated 64-bit Windows 10 host.  `platform.win32_ver()` is the
4-tuple `(release, version, csd, ptype)` CPython documents and returns. -/
def windowsEnv : Env :=
  { system := .ok "Windows", architecture := .ok ("64bit", "WindowsPE"),
    distro_name := .ok "", distro_version := .ok "", distro_id := .ok "",
    win32_ver := .ok ["10", "10.0.19045", "SP0", "Multiprocessor Free"],
    mac_ver := .ok ⟨"", ("", "", ""), ""⟩ }

/-- A simulated host of an OS family the code does not recognize, with
every underlying OS-query call succeeding. -/
def haikuEnv : Env :=
  { system := .ok "Haiku", architecture := .ok ("64bit", "ELF"),
    distro_name := .ok "", distro_version := .ok "", distro_id := .ok "",
    win32_ver := .ok ["", "", "", ""], mac_ver := .ok ⟨"", ("", "", ""), ""⟩ }

/-- C1: the claim says that on a simulated Windows host `get_system_info`
returns a string containing "Windows" and the fields of the
`platform.win32_ver()` tuple.  The code instead raises: CPython's
`win32_ver()` returns the 4-tuple `(release, version, csd, ptype)`, and
line 227 reads `win_ver[4]`, one past its last index, so the call dies
with `IndexError` before any string is assembled.  This theorem evaluates
the code at such a host. -/
theorem C1_windows_raises_index_error :
    windowsEnv.system = .ok "Windows" ∧
    windowsEnv.win32_ver = .ok ["10", "10.0.19045", "SP0", "Multiprocessor Free"] ∧
    get_system_info windowsEnv = .error .indexError :=
  ⟨rfl, rfl, rfl⟩

/-- C2: on a host whose OS family is none of "Linux", "Windows", "Darwin",
no branch assigns `os_info`, so `get_system_info` ends in the
`UnboundLocalError` of `return os_info` and returns no string at all. -/
theorem C2_unrecognized_family_undefined (env : Env) (a : String × String)
    (s : String)
    (harch : env.architecture = .ok a) (hsys : env.system = .ok s)
    (hL : s ≠ "Linux") (hW : s ≠ "Windows") (hD : s ≠ "Darwin") :
    get_system_info env = .error .unboundLocal ∧
    ∀ out : String, get_system_info env ≠ .ok out := by
  have h := get_system_info_unrecognized env a s harch hsys hL hW hD
  refine ⟨h, fun out hc => ?_⟩
  rw [h] at hc
  cases hc

theorem C2_witness :
    get_system_info haikuEnv = .error .unboundLocal ∧
    ∀ out : String, get_system_info haikuEnv ≠ .ok out :=
  C2_unrecognized_family_undefined haikuEnv ("64bit", "ELF") "Haiku" rfl rfl
    (by decide) (by decide) (by decide)

/-- C3: on a simulated Linux host whose queries succeed, `get_system_info`
returns a string that contains "Linux", the bit-width string
`platform.architecture()[0]`, and the `distro` name, version and id. -/
theorem C3_linux_string_contains_fields (env : Env) (a : String × String)
    (n v i : String)
    (harch : env.architecture = .ok a) (hsys : env.system = .ok "Linux")
    (hn : env.distro_name = .ok n) (hv : env.distro_version = .ok v)
    (hi : env.distro_id = .ok i) :
    ∃ out : String, get_system_info env = .ok out ∧
      strContains out "Linux" ∧ strContains out a.1 ∧
      strContains out n ∧ strContains out v ∧ strContains out i := by
  refine ⟨"Linux " ++ a.1 ++ " " ++ (n ++ " " ++ v ++ " (" ++ i ++ ")"),
    get_system_info_linux env a n v i harch hsys hn hv hi, ?_, ?_, ?_, ?_, ?_⟩
  · exact strContains_append_left _ _ _ (strContains_append_left _ _ _
      (strContains_append_left _ _ _ ⟨[], [' '], rfl⟩))
  · exact strContains_append_left _ _ _ (strContains_append_left _ _ _
      (strContains_append_right _ _ _ (strContains_refl _)))
  · exact strContains_append_right _ _ _ (strContains_append_left _ _ _
      (strContains_append_left _ _ _ (strContains_append_left _ _ _
        (strContains_append_left _ _ _ (strContains_append_left _ _ _
          (strContains_refl _))))))
  · exact strContains_append_right _ _ _ (strContains_append_left _ _ _
      (strContains_append_left _ _ _ (strContains_append_left _ _ _
        (strContains_append_right _ _ _ (strContains_refl _)))))
  · exact strContains_append_right _ _ _ (strContains_append_left _ _ _
      (strContains_append_right _ _ _ (strContains_refl _)))

theorem C3_witness :
    ∃ out : String, get_system_info linuxEnv = .ok out ∧
      strContains out "Linux" ∧ strContains out "64bit" ∧
      strContains out "Ubuntu" ∧ strContains out "22.04" ∧
      strContains out "ubuntu" :=
  C3_linux_string_contains_fields linuxEnv ("64bit", "ELF") "Ubuntu" "22.04"
    "ubuntu" rfl rfl rfl rfl rfl

/-- C4: on a simulated macOS host whose queries succeed, `get_system_info`
returns a string that contains "macOS" and the fields the code takes from
`platform.mac_ver()` (index 0, the release, and index 2, the machine). -/
theorem C4_darwin_string_contains_fields (env : Env) (a : String × String)
    (m : MacVer)
    (harch : env.architecture = .ok a) (hsys : env.system = .ok "Darwin")
    (hm : env.mac_ver = .ok m) :
    ∃ out : String, get_system_info env = .ok out ∧
      strContains out "macOS" ∧ strContains out m.release ∧
      strContains out m.machine := by
  refine ⟨"macOS " ++ (m.release ++ " " ++ m.machine),
    get_system_info_darwin env a m harch hsys hm, ?_, ?_, ?_⟩
  · exact strContains_append_left _ _ _ ⟨[], [' '], rfl⟩
  · exact strContains_append_right _ _ _ (strContains_append_left _ _ _
      (strContains_append_left _ _ _ (strContains_refl _)))
  · exact strContains_append_right _ _ _ (strContains_append_right _ _ _
      (strContains_refl _))

theorem C4_witness :
    ∃ out : String, get_system_info darwinEnv = .ok out ∧
      strContains out "macOS" ∧ strContains out "14.2" ∧
      strContains out "arm64" :=
  C4_darwin_string_contains_fields darwinEnv ("64bit", "")
    ⟨"14.2", ("", "", ""), "arm64"⟩ rfl rfl rfl

/-- C5 fails as stated: on a simulated macOS host whose architecture
bit-width is "64bit", the returned string is "macOS 14.2 arm64", which
does not contain the architecture bit-width. -/
theorem C5_counterexample :
    darwinEnv.architecture = .ok ("64bit", "") ∧
    get_system_info darwinEnv = .ok "macOS 14.2 arm64" ∧
    ¬ strContains "macOS 14.2 arm64" "64bit" := by
  refine ⟨rfl, rfl, ?_⟩
  rintro ⟨p, q, h⟩
  have hb : ('b' : Char) ∈ ("macOS 14.2 arm64" : String).data := by
    rw [h]
    have hm : ('b' : Char) ∈ ("64bit" : String).data := by decide
    simp [hm]
  exact absurd hb (by decide)

/-- C5 (amended): the architecture bit-width is part of the assembled
string only on Linux.  On macOS the result is assembled from the OS family
name and the two `mac_ver` fields alone, and on Windows no string is
assembled at all because the `win_ver[4]` access raises `IndexError` on
the 4-field tuple `platform.win32_ver()` returns. -/
theorem C5_arch_only_in_linux_result (envL envD envW : Env)
    (aL aD aW : String × String) (n v i : String) (m : MacVer)
    (t : List String)
    (hLa : envL.architecture = .ok aL) (hLs : envL.system = .ok "Linux")
    (hLn : envL.distro_name = .ok n) (hLv : envL.distro_version = .ok v)
    (hLi : envL.distro_id = .ok i)
    (hDa : envD.architecture = .ok aD) (hDs : envD.system = .ok "Darwin")
    (hDm : envD.mac_ver = .ok m)
    (hWa : envW.architecture = .ok aW) (hWs : envW.system = .ok "Windows")
    (hWt : envW.win32_ver = .ok t) (hWl : t.length = 4) :
    get_system_info envL =
      .ok ("Linux " ++ aL.1 ++ " " ++ (n ++ " " ++ v ++ " (" ++ i ++ ")")) ∧
    get_system_info envD = .ok ("macOS " ++ (m.release ++ " " ++ m.machine)) ∧
    get_system_info envW = .error .indexError :=
  ⟨get_system_info_linux envL aL n v i hLa hLs hLn hLv hLi,
   get_system_info_darwin envD aD m hDa hDs hDm,
   get_system_info_windows_4tuple envW aW t hWa hWs hWt hWl⟩

theorem C5_witness :
    get_system_info linuxEnv = .ok "Linux 64bit Ubuntu 22.04 (ubuntu)" ∧
    get_system_info darwinEnv = .ok "macOS 14.2 arm64" ∧
    get_system_info windowsEnv = .error .indexError :=
  C5_arch_only_in_linux_result linuxEnv darwinEnv windowsEnv
    ("64bit", "ELF") ("64bit", "") ("64bit", "WindowsPE")
    "Ubuntu" "22.04" "ubuntu" ⟨"14.2", ("", "", ""), "arm64"⟩
    ["10", "10.0.19045", "SP0", "Multiprocessor Free"]
    rfl rfl rfl rfl rfl rfl rfl rfl rfl rfl rfl rfl

/-- C6: every interface method other than `post_prompt` and
`get_system_info` either returns a fixed boolean constant
(`can_handle_post_prompt` returns `True`, every other `can_handle_*`
returns `False`) or is a `pass` stub that returns `None` and leaves the
plugin state and its mutable arguments untouched. -/
theorem C6_lifecycle_stub_surface {ρ δ δ' τ : Type}
    (self : SystemInformationPlugin) (response model cname : String)
    (prompt : PromptGenerator ρ) (messages : List Message) (args : δ)
    (msgs : δ') (temp : τ) (mt : Int) :
    can_handle_post_prompt self = (self, true) ∧
    can_handle_on_response self = (self, false) ∧
    can_handle_on_planning self = (self, false) ∧
    can_handle_post_planning self = (self, false) ∧
    can_handle_pre_instruction self = (self, false) ∧
    can_handle_on_instruction self = (self, false) ∧
    can_handle_post_instruction self = (self, false) ∧
    can_handle_pre_command self = (self, false) ∧
    can_handle_post_command self = (self, false) ∧
    can_handle_chat_completion self msgs model temp mt = (self, msgs, false) ∧
    on_response self response = (self, none) ∧
    on_planning self prompt messages = (self, prompt, messages, none) ∧
    post_planning self response = (self, none) ∧
    pre_instruction self messages = (self, messages, none) ∧
    on_instruction self messages = (self, messages, none) ∧
    post_instruction self response = (self, none) ∧
    pre_command self cname args = (self, args, none) ∧
    post_command self cname response = (self, none) ∧
    handle_chat_completion self messages model temp mt = (self, messages, none) :=
  ⟨rfl, rfl, rfl, rfl, rfl, rfl, rfl, rfl, rfl, rfl, rfl, rfl, rfl, rfl, rfl,
   rfl, rfl, rfl, rfl⟩

/-- C7: `post_prompt` hands back the very prompt object it was given: when
`get_system_info` yields a truthy (non-empty) string it appends exactly
one resource, "Shell commands executed on " followed by that string, and
it changes nothing else — not the rest of the prompt, not the plugin
state.  When the string is empty the prompt is returned untouched. -/
theorem C7_post_prompt_appends_one_resource {ρ : Type} (env : Env)
    (self : SystemInformationPlugin) (p : PromptGenerator ρ) (s : String)
    (h : get_system_info env = .ok s) :
    (s ≠ "" → post_prompt self env p =
      .ok (self,
        { resources := p.resources ++ ["Shell commands executed on " ++ s],
          rest := p.rest })) ∧
    (s = "" → post_prompt self env p = .ok (self, p)) := by
  constructor
  · intro hs
    simp [post_prompt, h, str_truthy, beq_eq_false_iff_ne.mpr hs,
      PromptGenerator.add_resource]
  · rintro rfl
    simp [post_prompt, h, str_truthy]

theorem C7_witness :
    post_prompt SystemInformationPlugin.init linuxEnv
      (⟨["r0"], 0⟩ : PromptGenerator Nat) =
      .ok (SystemInformationPlugin.init,
        ⟨["r0", "Shell commands executed on Linux 64bit Ubuntu 22.04 (ubuntu)"],
          0⟩) :=
  (C7_post_prompt_appends_one_resource linuxEnv SystemInformationPlugin.init
    ⟨["r0"], 0⟩ "Linux 64bit Ubuntu 22.04 (ubuntu)" rfl).1 (by decide)

/-- One of the underlying OS-query calls of `get_system_info` raises `e`,
and every call the code makes before it succeeds, in the evaluation order
of lines 212-233: `platform.architecture()`, `platform.system()`, then —
branch permitting — `distro.name()`, `distro.version()`, `distro.id()`,
`platform.win32_ver()`, `platform.mac_ver()`. -/
def some_query_fails_first (env : Env) (e : PyExc) : Prop :=
  env.architecture = .error e
  ∨ (∃ a, env.architecture = .ok a ∧ env.system = .error e)
  ∨ (∃ a, env.architecture = .ok a ∧ env.system = .ok "Linux" ∧
      env.distro_name = .error e)
  ∨ (∃ a n, env.architecture = .ok a ∧ env.system = .ok "Linux" ∧
      env.distro_name = .ok n ∧ env.distro_version = .error e)
  ∨ (∃ a n v, env.architecture = .ok a ∧ env.system = .ok "Linux" ∧
      env.distro_name = .ok n ∧ env.distro_version = .ok v ∧
      env.distro_id = .error e)
  ∨ (∃ a, env.architecture = .ok a ∧ env.system = .ok "Windows" ∧
      env.win32_ver = .error e)
  ∨ (∃ a, env.architecture = .ok a ∧ env.system = .ok "Darwin" ∧
      env.mac_ver = .error e)

/-- C8 fails as stated ("raises if and only if an underlying OS-query call
raises"): on this host every underlying call succeeds — each `Env` field
is an `ok` value — and `get_system_info` still raises
(`UnboundLocalError`). -/
theorem C8_counterexample :
    haikuEnv.system = .ok "Haiku" ∧
    haikuEnv.architecture = .ok ("64bit", "ELF") ∧
    haikuEnv.distro_name = .ok "" ∧
    haikuEnv.distro_version = .ok "" ∧
    haikuEnv.distro_id = .ok "" ∧
    haikuEnv.win32_ver = .ok ["", "", "", ""] ∧
    haikuEnv.mac_ver = .ok ⟨"", ("", "", ""), ""⟩ ∧
    get_system_info haikuEnv = .error .unboundLocal :=
  ⟨rfl, rfl, rfl, rfl, rfl, rfl, rfl, rfl⟩

/-- C8 (amended): `get_system_info` catches nothing — when an underlying
OS-query call raises (and every call before it succeeded), that exception
propagates unchanged to the caller.  The function can however also raise
on its own with all queries succeeding: `UnboundLocalError` on an
unrecognized OS family and `IndexError` on Windows. -/
theorem C8_uncaught_query_exception_propagates (env : Env) (e : PyExc)
    (h : some_query_fails_first env e) :
    get_system_info env = .error e := by
  rcases h with h | ⟨a, h1, h2⟩ | ⟨a, h1, h2, h3⟩ | ⟨a, n, h1, h2, h3, h4⟩ |
    ⟨a, n, v, h1, h2, h3, h4, h5⟩ | ⟨a, h1, h2, h3⟩ | ⟨a, h1, h2, h3⟩
  · simp [get_system_info, h]
  · simp [get_system_info, h1, h2]
  · simp [get_system_info, h1, h2, h3]
  · simp [get_system_info, h1, h2, h3, h4]
  · simp [get_system_info, h1, h2, h3, h4, h5]
  · simp [get_system_info, h1, h2, h3]
  · simp [get_system_info, h1, h2, h3, truthy_none]

/-- A host on which `platform.architecture()` itself raises. -/
def archFailEnv : Env :=
  { system := .ok "Linux",
    architecture := .error (.other "architecture query failure"),
    distro_name := .ok "", distro_version := .ok "", distro_id := .ok "",
    win32_ver := .ok ["", "", "", ""], mac_ver := .ok ⟨"", ("", "", ""), ""⟩ }

theorem C8_witness :
    get_system_info archFailEnv = .error (.other "architecture query failure") :=
  C8_uncaught_query_exception_propagates archFailEnv
    (.other "architecture query failure") (Or.inl rfl)

/-- C9: `get_system_info` is deterministic in the OS environment — two
hosts on which every queried call returns the same outcome produce the
same result.  (The embedding makes the dependence exhaustive: `Env` holds
precisely the seven query outcomes the function can read.) -/
theorem C9_deterministic_in_queries (env₁ env₂ : Env)
    (h1 : env₁.system = env₂.system)
    (h2 : env₁.architecture = env₂.architecture)
    (h3 : env₁.distro_name = env₂.distro_name)
    (h4 : env₁.distro_version = env₂.distro_version)
    (h5 : env₁.distro_id = env₂.distro_id)
    (h6 : env₁.win32_ver = env₂.win32_ver)
    (h7 : env₁.mac_ver = env₂.mac_ver) :
    get_system_info env₁ = get_system_info env₂ := by
  have he : env₁ = env₂ := by
    cases env₁
    cases env₂
    simp_all
  rw [he]

theorem C9_witness :
    get_system_info linuxEnv = get_system_info linuxEnv :=
  C9_deterministic_in_queries linuxEnv linuxEnv rfl rfl rfl rfl rfl rfl rfl

/-- C10: branch selection depends only on `platform.system()`.  The Linux
and macOS helper strings are truthy whatever the queried fields hold —
even all-empty fields leave the separator characters — so on a recognized
OS family the guard always assigns `os_info` and the undefined/absent
outcome (`UnboundLocalError`) is unreachable; on Windows the function
never reaches an unassigned `return os_info` either. -/
theorem C10_recognized_family_always_assigns (env : Env)
    (a : String × String) (n v i : String) (m : MacVer) (t : List String)
    (harch : env.architecture = .ok a) :
    truthy (some (n ++ " " ++ v ++ " (" ++ i ++ ")")) = true ∧
    truthy (some (m.release ++ " " ++ m.machine)) = true ∧
    (env.system = .ok "Linux" → env.distro_name = .ok n →
      env.distro_version = .ok v → env.distro_id = .ok i →
      ∃ out, get_system_info env = .ok out) ∧
    (env.system = .ok "Darwin" → env.mac_ver = .ok m →
      ∃ out, get_system_info env = .ok out) ∧
    (env.system = .ok "Windows" → env.win32_ver = .ok t →
      get_system_info env ≠ .error .unboundLocal) :=
  ⟨truthy_distro_helper n v i,
   truthy_mac_helper m.release m.machine,
   fun hs hn hv hi => ⟨_, get_system_info_linux env a n v i harch hs hn hv hi⟩,
   fun hs hm => ⟨_, get_system_info_darwin env a m harch hs hm⟩,
   fun hs ht => get_system_info_windows_not_unbound env a t harch hs ht⟩

theorem C10_witness :
    ∃ out, get_system_info linuxEmptyEnv = .ok out :=
  (C10_recognized_family_always_assigns linuxEmptyEnv ("64bit", "ELF")
    "" "" "" ⟨"", ("", "", ""), ""⟩ [] rfl).2.2.1 rfl rfl rfl rfl

end SystemInfoPlugin
